import Mathlib

/-!
Shallow embedding of the yt-digest content pipeline.

The definitions below are translated from the repository sources:
  * src/util/fmt_parser.py   (parse_duration)
  * src/lib/region.py        (Region, Region.from_code, Region.is_valid_code)
  * src/db/base.py           (BaseDB.insert_one, BaseDB.update_one, BaseDB.find_by_id)
  * src/db/keywords.py, src/db/videos.py, src/db/transcripts.py, src/db/articles.py
  * src/workflow/daily.py    (DailyWorkflow: fetch_trending_keywords, search_videos,
                              download_videos, transcribe_videos, run)

Modelling conventions:
  * Python strings are Lean Strings; where character-level processing matters the
    definitions work on the underlying character list.
  * The wall clock (datetime.utcnow / datetime.now) is modelled by an explicit
    time source times : Nat -> Nat together with a read counter in the store
    state; every clock read consumes one index, so two successive reads may
    return different values, exactly as two successive utcnow() calls may.
  * Mongo ObjectId is modelled as a Nat assigned by a store counter; its
    external string form is an injective rendering, and constructing an
    ObjectId from a string that is not in that form fails with invalidId,
    mirroring bson.ObjectId raising InvalidId on ill-formed input.
  * Python exceptions are modelled with Except PyErr; a try/except block
    becomes a match on the Except value.
-/

namespace YTDigest

/-- Python exception classes that the modelled code can raise or catch. -/
inductive PyErr
  | valueError
  | typeError
  | invalidId
  | collaborator (msg : String)
deriving DecidableEq

/-- Region enum from src/lib/region.py. -/
inductive Region
  | TAIWAN
  | HONG_KONG
  | JAPAN
  | KOREA
  | USA
  | SINGAPORE
  | GLOBAL
deriving DecidableEq

/-- The value of each enum member (the region code string). -/
def Region.value : Region → String
  | .TAIWAN => "TW"
  | .HONG_KONG => "HK"
  | .JAPAN => "JP"
  | .KOREA => "KR"
  | .USA => "US"
  | .SINGAPORE => "SG"
  | .GLOBAL => "GLOBAL"

/-- Enumeration of the members of the Region enum, in declaration order. -/
def Region.members : List Region :=
  [.TAIWAN, .HONG_KONG, .JAPAN, .KOREA, .USA, .SINGAPORE, .GLOBAL]

/-- ASCII uppercase of one character, as Python str.upper acts on the ASCII
region codes used here. -/
def charUpper (c : Char) : Char :=
  if 97 ≤ c.toNat ∧ c.toNat ≤ 122 then Char.ofNat (c.toNat - 32) else c

/-- Python code.upper() on the ASCII strings this code handles. -/
def pyUpper (s : String) : String := String.mk (s.data.map charUpper)

/-- Region.from_code: looks the enum up by value after code.upper(); returns
None on a ValueError from the enum constructor. -/
def Region.from_code (code : String) : Option Region :=
  Region.members.find? (fun r => r.value == pyUpper code)

/-- Region.is_valid_code: membership of code.upper() in the member values. -/
def Region.is_valid_code (code : String) : Bool :=
  (Region.members.map Region.value).contains (pyUpper code)

/-- Decimal digit character, as produced by Python str() on digits 0-9. -/
def digitChar (m : Nat) : Char := Char.ofNat (48 + m)

/-- Numeric value of a decimal digit list (most significant first). -/
def digitsVal (cs : List Char) : Nat :=
  cs.foldl (fun a c => 10 * a + (c.toNat - 48)) 0

/-- Fuel-driven rendering of the decimal digits of n (no digits for 0). -/
def natDigitsAux : Nat → Nat → List Char
  | 0, _ => []
  | fuel + 1, n => if n = 0 then [] else natDigitsAux fuel (n / 10) ++ [digitChar (n % 10)]

/-- Decimal rendering of a natural number. -/
def natDigits (n : Nat) : List Char :=
  if n = 0 then [digitChar 0] else natDigitsAux (n + 1) n

/-- Decimal rendering of an integer, as Python str() renders int. -/
def intToString (n : Int) : String :=
  if n < 0 then String.mk ('-' :: natDigits n.natAbs) else String.mk (natDigits n.natAbs)

/-- External string form of a store identifier: str(ObjectId).  Modelled as an
injective rendering of the underlying Nat identifier. -/
def objectIdStr (n : Nat) : String :=
  String.mk ('o' :: 'i' :: 'd' :: natDigits n)

/-- ObjectId(s): recover the native identifier from its external string form.
Raises invalidId when the string is not in the native form, mirroring
bson.ObjectId raising InvalidId on ill-formed input. -/
def parseObjectId (s : String) : Except PyErr Nat :=
  match s.data with
  | 'o' :: 'i' :: 'd' :: c :: rest =>
      if (c :: rest).all Char.isDigit then .ok (digitsVal (c :: rest))
      else .error .invalidId
  | _ => .error .invalidId

/-- Leading and trailing whitespace removal, as Python int() tolerates. -/
def stripChars (cs : List Char) : List Char :=
  ((cs.dropWhile Char.isWhitespace).reverse.dropWhile Char.isWhitespace).reverse

/-- Digit-sequence parser: a nonempty all-digit sequence, else ValueError. -/
def digitsOnlyVal : List Char → Except PyErr Nat
  | [] => .error .valueError
  | cs => if cs.all Char.isDigit then .ok (digitsVal cs) else .error .valueError

/-- Python int() applied to a string: optional surrounding whitespace, optional
sign, then decimal digits; anything else raises ValueError. -/
def parseIntChars (cs : List Char) : Except PyErr Int :=
  match stripChars cs with
  | '-' :: ds => (digitsOnlyVal ds).map (fun v => -(v : Int))
  | '+' :: ds => (digitsOnlyVal ds).map (fun v => (v : Int))
  | ds => (digitsOnlyVal ds).map (fun v => (v : Int))

/-- Heterogeneous Python values as the keyword fetchers hand them over
(strings, ints, None, and Region enum handles). -/
inductive PyVal
  | str (s : String)
  | int (n : Int)
  | pynone
  | regionVal (r : Region)
deriving DecidableEq

/-- Python str() on the modelled values.  str(Region) returns the enum value
per the Region.__str__ override in src/lib/region.py. -/
def pyStr : PyVal → String
  | .str s => s
  | .int n => intToString n
  | .pynone => "None"
  | .regionVal r => r.value

/-- Python int() on the modelled values: identity on int, string parse on str,
TypeError on None and on a Region handle. -/
def pyInt : PyVal → Except PyErr Int
  | .int n => .ok n
  | .str s => parseIntChars s.data
  | .pynone => .error .typeError
  | .regionVal _ => .error .typeError

/-- parse_duration from src/util/fmt_parser.py: duration.replace('PT', ''),
done left to right without overlap, exactly as Python str.replace. -/
def stripPT : List Char → List Char
  | 'P' :: 'T' :: rest => stripPT rest
  | c :: rest => c :: stripPT rest
  | [] => []

/-- Python str.split(sep) for a one-character separator: always a nonempty
list of fields. -/
def splitOnChar (sep : Char) : List Char → List (List Char)
  | [] => [[]]
  | c :: rest =>
      let r := splitOnChar sep rest
      if c = sep then [] :: r
      else
        match r with
        | [] => [[c]]
        | h :: t => (c :: h) :: t

/-- Two-variable unpacking of a split result: a, b = cs.split(sep); Python
raises ValueError unless the split has exactly two fields. -/
def split2 (sep : Char) (cs : List Char) : Except PyErr (List Char × List Char) :=
  match splitOnChar sep cs with
  | [a, b] => .ok (a, b)
  | _ => .error .valueError

/-- parse_duration from src/util/fmt_parser.py: strips PT, then handles the
H, M and S tokens in that order, each contributing hours*3600, minutes*60
and seconds; a missing token contributes nothing. -/
def parse_duration (duration : String) : Except PyErr Int := do
  let d0 := stripPT duration.data
  let (hSec, d1) ←
    if d0.contains 'H' then do
      let (hs, rest) ← split2 'H' d0
      let h ← parseIntChars hs
      pure (h * 3600, rest)
    else pure ((0 : Int), d0)
  let (mSec, d2) ←
    if d1.contains 'M' then do
      let (ms, rest) ← split2 'M' d1
      let m ← parseIntChars ms
      pure (m * 60, rest)
    else pure ((0 : Int), d1)
  let sSec ←
    if d2.contains 'S' then do
      let (ss, _rest) ← split2 'S' d2
      parseIntChars ss
    else pure (0 : Int)
  pure (hSec + mSec + sSec)

/-- Keyword document as stored by KeywordsDB.insert_keyword via insert_one. -/
structure KeywordDoc where
  keyword : String
  rank : Int
  score : Int
  platform : String
  region : String
  metadata : List (String × PyVal)
  created_at : Nat
  updated_at : Nat
deriving DecidableEq

/-- Video document as stored by VideosDB.insert_video via insert_one. -/
structure VideoDoc where
  keyword_id : Nat
  video_category : String
  video_thumbnail_url : String
  video_url : String
  video_youtube_id : String
  video_title : String
  video_duration : Int
  video_views : Int
  video_likes : Int
  video_language : String
  video_comments : Int
  created_at : Nat
  updated_at : Nat
deriving DecidableEq

/-- Transcript document as stored by TranscriptsDB.insert_transcript. -/
structure TranscriptDoc where
  video_id : Nat
  transcript : String
  language : String
  created_at : Nat
  updated_at : Nat
deriving DecidableEq

/-- Article document as stored by ArticlesDB.insert_article. -/
structure ArticleDoc where
  keyword_id : Nat
  transcript_id : Nat
  video_id : Nat
  article_language : String
  title : String
  content : String
  tags : String
  seo_metadata : List (String × PyVal)
  published : Bool
  created_at : Nat
  updated_at : Nat
deriving DecidableEq

/-- The document store plus the clock-read counter.  nextId is the counter
from which store-assigned ObjectIds are drawn; clock counts how many times
datetime.utcnow()/datetime.now() has been read. -/
structure DBState where
  nextId : Nat
  clock : Nat
  keywords : List (Nat × KeywordDoc)
  videos : List (Nat × VideoDoc)
  transcripts : List (Nat × TranscriptDoc)
  articles : List (Nat × ArticleDoc)
deriving DecidableEq

def emptyDB : DBState :=
  { nextId := 0, clock := 0, keywords := [], videos := [], transcripts := [], articles := [] }

/-- One clock read (datetime.utcnow() or datetime.now()): returns the time
source's value at the current read index and advances the index. -/
def utcnow (times : Nat → Nat) (s : DBState) : Nat × DBState :=
  (times s.clock, { s with clock := s.clock + 1 })

/-- KeywordsDB.insert_keyword followed by BaseDB.insert_one.  insert_keyword
stamps the document with a single datetime.now() for both timestamps, but
insert_one then overwrites created_at and updated_at with two separate
datetime.utcnow() reads; only the two insert_one reads are visible in the
stored document.  The isinstance validations in insert_keyword cannot fail
here because the arguments are already of the validated types. -/
def insertKeywordDoc (times : Nat → Nat) (s : DBState) (keyword : String) (rank score : Int)
    (platform region : String) (metadata : List (String × PyVal)) : String × DBState :=
  let (t1, s1) := utcnow times s
  let (t2, s2) := utcnow times s1
  let doc : KeywordDoc :=
    { keyword := keyword, rank := rank, score := score, platform := platform,
      region := region, metadata := metadata, created_at := t1, updated_at := t2 }
  (objectIdStr s2.nextId,
   { s2 with nextId := s2.nextId + 1, keywords := s2.keywords ++ [(s2.nextId, doc)] })

/-- VideosDB.insert_video followed by BaseDB.insert_one.  The document stores
ObjectId(keyword_id), whose construction can raise InvalidId. -/
def insertVideoDoc (times : Nat → Nat) (s : DBState) (keyword_id : String)
    (video_category video_thumbnail_url video_url video_youtube_id video_title : String)
    (video_duration video_views video_likes : Int) (video_language : String)
    (video_comments : Int) : Except PyErr (String × DBState) := do
  let koid ← parseObjectId keyword_id
  let (t1, s1) := utcnow times s
  let (t2, s2) := utcnow times s1
  let doc : VideoDoc :=
    { keyword_id := koid, video_category := video_category,
      video_thumbnail_url := video_thumbnail_url, video_url := video_url,
      video_youtube_id := video_youtube_id, video_title := video_title,
      video_duration := video_duration, video_views := video_views,
      video_likes := video_likes, video_language := video_language,
      video_comments := video_comments, created_at := t1, updated_at := t2 }
  pure (objectIdStr s2.nextId,
    { s2 with nextId := s2.nextId + 1, videos := s2.videos ++ [(s2.nextId, doc)] })

/-- TranscriptsDB.insert_transcript followed by BaseDB.insert_one. -/
def insertTranscriptDoc (times : Nat → Nat) (s : DBState) (video_id : String)
    (transcript language : String) : Except PyErr (String × DBState) := do
  let void ← parseObjectId video_id
  let (t1, s1) := utcnow times s
  let (t2, s2) := utcnow times s1
  let doc : TranscriptDoc :=
    { video_id := void, transcript := transcript, language := language,
      created_at := t1, updated_at := t2 }
  pure (objectIdStr s2.nextId,
    { s2 with nextId := s2.nextId + 1, transcripts := s2.transcripts ++ [(s2.nextId, doc)] })

/-- ArticlesDB.insert_article followed by BaseDB.insert_one. -/
def insertArticleDoc (times : Nat → Nat) (s : DBState)
    (keyword_id transcript_id video_id : String)
    (article_language title content tags : String)
    (seo_metadata : List (String × PyVal)) (published : Bool) :
    Except PyErr (String × DBState) := do
  let koid ← parseObjectId keyword_id
  let toid ← parseObjectId transcript_id
  let void ← parseObjectId video_id
  let (t1, s1) := utcnow times s
  let (t2, s2) := utcnow times s1
  let doc : ArticleDoc :=
    { keyword_id := koid, transcript_id := toid, video_id := void,
      article_language := article_language, title := title, content := content,
      tags := tags, seo_metadata := seo_metadata, published := published,
      created_at := t1, updated_at := t2 }
  pure (objectIdStr s2.nextId,
    { s2 with nextId := s2.nextId + 1, articles := s2.articles ++ [(s2.nextId, doc)] })

/-- BaseDB.find_by_id on the keywords collection: id = ObjectId(id) (which can
raise InvalidId), then find_one on the _id field. -/
def findKeywordById (s : DBState) (idStr : String) : Except PyErr (Option KeywordDoc) := do
  let oid ← parseObjectId idStr
  pure ((s.keywords.find? (fun p => p.fst == oid)).map Prod.snd)

/-- BaseDB.find_by_id on the videos collection. -/
def findVideoById (s : DBState) (idStr : String) : Except PyErr (Option VideoDoc) := do
  let oid ← parseObjectId idStr
  pure ((s.videos.find? (fun p => p.fst == oid)).map Prod.snd)

/-- BaseDB.find_by_id on the articles collection. -/
def findArticleById (s : DBState) (idStr : String) : Except PyErr (Option ArticleDoc) := do
  let oid ← parseObjectId idStr
  pure ((s.articles.find? (fun p => p.fst == oid)).map Prod.snd)

/-- ArticlesDB.update_publish_status with the inlined BaseDB.update_one.
ObjectId(article_id) is constructed first; any exception is caught by the
surrounding try/except, which returns False.  update_one stamps updated_at
with a fresh utcnow() read and issues a Mongo update_one whose
modified_count counts the document only if the applied update actually
changed it; the returned Bool is modified_count > 0. -/
def update_publish_status (times : Nat → Nat) (s : DBState) (article_id : String)
    (published : Bool) : Bool × DBState :=
  match parseObjectId article_id with
  | .error _ => (false, s)
  | .ok oid =>
      let (t, s1) := utcnow times s
      match s1.articles.find? (fun p => p.fst == oid) with
      | Option.none => (false, s1)
      | some (i, d) =>
          let d2 : ArticleDoc := { d with published := published, updated_at := t }
          (decide (d2 ≠ d),
           { s1 with articles := s1.articles.map (fun p => if p.fst == i then (i, d2) else p) })

/-- One raw record as produced by a keyword fetcher.  keyword and rank are
required by the fetcher contract; score models keyword_data.get('score')
(absent keys surface as None = pynone); metadata models
keyword_data.get('metadata', empty dict), with Option.none standing for an
absent key. -/
structure RawKeyword where
  keyword : PyVal
  rank : PyVal
  score : PyVal
  metadata : Option (List (String × PyVal))
deriving DecidableEq

/-- The payload handed to KeywordsDB.insert_keyword after coercion. -/
structure KeywordPayload where
  keyword : String
  rank : Int
  score : Int
  platform : String
  region : String
  metadata : List (String × PyVal)
deriving DecidableEq

/-- The metadata preprocessing in DailyWorkflow.fetch_trending_keywords: a
missing metadata key defaults to an empty dict, and a Region enum stored
under the region key is replaced by its value string. -/
def normalizeMetadata (md : Option (List (String × PyVal))) : List (String × PyVal) :=
  let m := md.getD []
  match m.find? (fun p => p.fst == "region") with
  | some (_, .regionVal r) =>
      m.map (fun p => if p.fst == "region" then (p.fst, PyVal.str r.value) else p)
  | _ => m

/-- The region argument of insert_keyword: region.value if the configured
region is a Region handle, else str(region). -/
def regionString : PyVal → String
  | .regionVal r => r.value
  | v => pyStr v

/-- The per-record coercion block of DailyWorkflow.fetch_trending_keywords:
score defaults to 0 when None, then str(keyword), int(rank), int(score) in
the order the insert_data dict literal evaluates them.  A ValueError or
TypeError from a coercion is the error result. -/
def normalizeRecord (platform : String) (region : PyVal) (r : RawKeyword) :
    Except PyErr KeywordPayload := do
  let md := normalizeMetadata r.metadata
  let score0 := match r.score with
    | .pynone => PyVal.int 0
    | v => v
  let kw := pyStr r.keyword
  let rank ← pyInt r.rank
  let sc ← pyInt score0
  pure { keyword := kw, rank := rank, score := sc, platform := platform,
         region := regionString region, metadata := md }

/-- One (region, platform) pair of the fetcher table, together with the
outcome of its fetch() call; an error models a fetcher-level exception. -/
structure FetchBatch where
  region : PyVal
  platform : String
  fetched : Except PyErr (List RawKeyword)

/-- A single search result as returned by YouTubeSearcher.search, which has
already coerced the engagement counters to int and passes the ISO-8601
duration string through. -/
structure SearchResult where
  video_id : String
  title : String
  url : String
  thumbnail_url : String
  duration : String
  view_count : Int
  like_count : Int
  comment_count : Int
deriving DecidableEq

/-- The transcription collaborator result: text and language. -/
structure TranscriptResult where
  text : String
  language : String
deriving DecidableEq

namespace DailyWorkflow

/-- The inner record loop of fetch_trending_keywords: each record is coerced
inside a try/except (ValueError, TypeError); a failing record is dropped
with continue, a surviving record is inserted and its id accumulated. -/
def fetchRecords (times : Nat → Nat) (platform : String) (region : PyVal)
    (s : DBState) (ids : List String) : List RawKeyword → DBState × List String
  | [] => (s, ids)
  | r :: rest =>
      match normalizeRecord platform region r with
      | .error _ => fetchRecords times platform region s ids rest
      | .ok pay =>
          let (idStr, s1) := insertKeywordDoc times s pay.keyword pay.rank pay.score
            pay.platform pay.region pay.metadata
          fetchRecords times platform region s1 (ids ++ [idStr]) rest

/-- The outer loop of fetch_trending_keywords over the regions-by-platforms
fetcher table: a fetcher-level exception aborts only that batch (the outer
try/except logs and continues). -/
def fetchBatches (times : Nat → Nat) (s : DBState) (ids : List String) :
    List FetchBatch → DBState × List String
  | [] => (s, ids)
  | b :: rest =>
      match b.fetched with
      | .error _ => fetchBatches times s ids rest
      | .ok recs =>
          let (s1, ids1) := fetchRecords times b.platform b.region s ids recs
          fetchBatches times s1 ids1 rest

/-- DailyWorkflow.fetch_trending_keywords: total, returns the inserted
Keyword ids. -/
def fetch_trending_keywords (times : Nat → Nat) (s : DBState)
    (batches : List FetchBatch) : DBState × List String :=
  fetchBatches times s [] batches

/-- The inner result loop of search_videos: each result is parsed and
inserted with the constants video_category = education and
video_language = en; there is no per-item exception handling here, so a
parse_duration or insert failure propagates. -/
def searchResultsLoop (times : Nat → Nat) (keyword_id : String) (s : DBState)
    (vids : List String) : List SearchResult → Except PyErr (DBState × List String)
  | [] => .ok (s, vids)
  | v :: rest => do
      let dur ← parse_duration v.duration
      let (vidStr, s1) ← insertVideoDoc times s keyword_id "education" v.thumbnail_url
        v.url v.video_id v.title dur v.view_count v.like_count "en" v.comment_count
      searchResultsLoop times keyword_id s1 (vids ++ [vidStr]) rest

/-- The keyword loop of search_videos: an unresolved keyword id is skipped,
everything else runs without a try/except, so searcher or insertion
failures propagate out of the stage. -/
def searchKeywordsLoop (times : Nat → Nat)
    (searcher : String → String → Except PyErr (List SearchResult))
    (s : DBState) (vids : List String) : List String → Except PyErr (DBState × List String)
  | [] => .ok (s, vids)
  | kid :: rest => do
      let kd? ← findKeywordById s kid
      match kd? with
      | Option.none => searchKeywordsLoop times searcher s vids rest
      | some kd => do
          let results ← searcher kd.keyword kd.region
          let (s1, vids1) ← searchResultsLoop times kid s vids results
          searchKeywordsLoop times searcher s1 vids1 rest

/-- DailyWorkflow.search_videos. -/
def search_videos (times : Nat → Nat)
    (searcher : String → String → Except PyErr (List SearchResult))
    (s : DBState) (keyword_ids : List String) : Except PyErr (DBState × List String) :=
  searchKeywordsLoop times searcher s [] keyword_ids

/-- The loop of download_videos: an unresolved video id is skipped; the
download call has no per-item exception handling, so a downloader failure
propagates out of the stage.  A successful download records the path under
the video id. -/
def downloadLoop (downloader : String → Except PyErr String) (s : DBState)
    (pm : List (String × String)) : List String → Except PyErr (List (String × String))
  | [] => .ok pm
  | vid :: rest => do
      let vd? ← findVideoById s vid
      match vd? with
      | Option.none => downloadLoop downloader s pm rest
      | some vd => do
          let path ← downloader vd.video_url
          downloadLoop downloader s (pm ++ [(vid, path)]) rest

/-- DailyWorkflow.download_videos: does not touch the store state. -/
def download_videos (downloader : String → Except PyErr String) (s : DBState)
    (video_ids : List String) : Except PyErr (List (String × String)) :=
  downloadLoop downloader s [] video_ids

/-- The loop of transcribe_videos: a video id without a (truthy) path is
skipped; transcription plus transcript insertion run inside a try/except
that catches every exception, so per-item failures never propagate. -/
def transcribeLoop (times : Nat → Nat)
    (transcriber : String → Except PyErr TranscriptResult)
    (paths : List (String × String)) (s : DBState) : List String → DBState
  | [] => s
  | vid :: rest =>
      match (paths.find? (fun p => p.fst == vid)).map Prod.snd with
      | Option.none => transcribeLoop times transcriber paths s rest
      | some path =>
          if path = "" then transcribeLoop times transcriber paths s rest
          else
            match (do
              let tr ← transcriber path
              insertTranscriptDoc times s vid tr.text tr.language :
                Except PyErr (String × DBState)) with
            | .error _ => transcribeLoop times transcriber paths s rest
            | .ok (_, s1) => transcribeLoop times transcriber paths s1 rest

/-- DailyWorkflow.transcribe_videos: total. -/
def transcribe_videos (times : Nat → Nat)
    (transcriber : String → Except PyErr TranscriptResult)
    (s : DBState) (video_ids : List String) (paths : List (String × String)) : DBState :=
  transcribeLoop times transcriber paths s video_ids

/-- The external collaborators of one run, as abstract oracles: the fetcher
table with its fetch outcomes, the video searcher, the media downloader and
the transcriber. -/
structure Oracles where
  batches : List FetchBatch
  searcher : String → String → Except PyErr (List SearchResult)
  downloader : String → Except PyErr String
  transcriber : String → Except PyErr TranscriptResult

/-- The aggregate counts logged by run() on completion.  Note that run() logs
keyword, video and download counts but no transcript count. -/
structure RunReport where
  keywords_fetched : Nat
  videos_found : Nat
  videos_downloaded : Nat
deriving DecidableEq

/-- DailyWorkflow.run: the four stages in sequence under a try/except that
re-raises, so any exception escaping a stage is a run-level failure.  A
returned report is the Done state together with the logged counts. -/
def run (times : Nat → Nat) (o : Oracles) (s : DBState) :
    Except PyErr (RunReport × DBState) := do
  let (s1, kids) := fetch_trending_keywords times s o.batches
  let (s2, vids) ← search_videos times o.searcher s1 kids
  let pmap ← download_videos o.downloader s2 vids
  let s3 := transcribe_videos times o.transcriber s2 vids pmap
  pure ({ keywords_fetched := kids.length, videos_found := vids.length,
          videos_downloaded := pmap.length }, s3)

end DailyWorkflow

/-! ### Auxiliary definitions used by the statements -/

/-- The value of an Except when it succeeded. -/
def okValue {ε α : Type} : Except ε α → Option α
  | .ok a => some a
  | .error _ => Option.none

/-- Reference fold: insert a list of already-coerced payloads one after the
other, accumulating the returned ids.  Used to state what the record loop
of fetch_trending_keywords computes. -/
def insertPayloads (times : Nat → Nat) (s : DBState) (ids : List String) :
    List KeywordPayload → DBState × List String
  | [] => (s, ids)
  | p :: rest =>
      let r := insertKeywordDoc times s p.keyword p.rank p.score p.platform p.region p.metadata
      insertPayloads times r.snd (ids ++ [r.fst]) rest

/-! ### Concrete fixtures for witnesses and counterexamples -/

/-- A strictly increasing time source: every clock read returns a new value,
as two successive utcnow() calls generally do. -/
def cxTimes : Nat → Nat := fun i => i

def cxGoodRec : RawKeyword :=
  { keyword := .str "lofi", rank := .int 1, score := .pynone, metadata := Option.none }

def cxBadRankRec : RawKeyword :=
  { keyword := .str "news", rank := .str "abc", score := .pynone, metadata := Option.none }

def cxIntKwRec : RawKeyword :=
  { keyword := .int 42, rank := .int 2, score := .pynone, metadata := Option.none }

def cxWsRec : RawKeyword :=
  { keyword := .str "  ", rank := .int 1, score := .pynone, metadata := Option.none }

def cxSearchRes : SearchResult :=
  { video_id := "abc123"
    title := "t"
    url := "u"
    thumbnail_url := "th"
    duration := "PT45S"
    view_count := 10
    like_count := 2
    comment_count := 1 }

def cxSearchResB : SearchResult :=
  { video_id := "def456"
    title := "tB"
    url := "uB"
    thumbnail_url := "thB"
    duration := "PT2M3S"
    view_count := 5
    like_count := 1
    comment_count := 0 }

def cxBatch : FetchBatch :=
  { region := .str "TW", platform := "google_trends", fetched := .ok [cxGoodRec] }

/-- Oracles of a run in which one media download fails. -/
def cxOraclesDownFail : DailyWorkflow.Oracles :=
  { batches := [cxBatch]
    searcher := fun _ _ => .ok [cxSearchRes]
    downloader := fun _ => .error (.collaborator "network")
    transcriber := fun _ => .ok { text := "hello", language := "en" } }

/-- Oracles of a run in which the download of video A (url u) fails while the
download of video B (url uB) succeeds. -/
def cxOraclesAB : DailyWorkflow.Oracles :=
  { batches := [cxBatch]
    searcher := fun _ _ => .ok [cxSearchRes, cxSearchResB]
    downloader := fun url => if url == "u" then .error (.collaborator "downA") else .ok "/tmp/b.mp4"
    transcriber := fun _ => .ok { text := "hello", language := "en" } }

/-- Oracles of a fully successful run. -/
def cxOraclesOk : DailyWorkflow.Oracles :=
  { batches := [cxBatch]
    searcher := fun _ _ => .ok [cxSearchRes]
    downloader := fun _ => .ok "/tmp/v.mp4"
    transcriber := fun _ => .ok { text := "hello", language := "en" } }

/-- A keyword record as the store holds it after one insert under cxTimes. -/
def cxKeywordDoc : KeywordDoc :=
  { keyword := "lofi", rank := 1, score := 0, platform := "google_trends", region := "TW",
    metadata := [], created_at := 0, updated_at := 1 }

/-- A store state holding exactly one keyword. -/
def cxKState : DBState :=
  { nextId := 1, clock := 2, keywords := [(0, cxKeywordDoc)], videos := [],
    transcripts := [], articles := [] }

/-- The video document inserted by the search stage from cxSearchRes under
cxTimes, starting from cxKState. -/
def cxVideoDoc : VideoDoc :=
  { keyword_id := 0, video_category := "education", video_thumbnail_url := "th",
    video_url := "u", video_youtube_id := "abc123", video_title := "t",
    video_duration := 45, video_views := 10, video_likes := 2, video_language := "en",
    video_comments := 1, created_at := 2, updated_at := 3 }

/-- The store state after the search stage run from cxKState. -/
def cxVState : DBState :=
  { nextId := 2, clock := 4, keywords := [(0, cxKeywordDoc)], videos := [(1, cxVideoDoc)],
    transcripts := [], articles := [] }

/-- A store state holding exactly one unpublished article, as produced by
insertArticleDoc under cxTimes from the empty store. -/
def cxArtState : DBState :=
  match insertArticleDoc cxTimes emptyDB (objectIdStr 5) (objectIdStr 6) (objectIdStr 7)
      "en" "Title" "Content" "tags" [] false with
  | .ok (_, s) => s
  | .error _ => emptyDB

/-- A video document for the download counterexample. -/
def cxVideoDocB : VideoDoc :=
  { keyword_id := 0, video_category := "education", video_thumbnail_url := "thB",
    video_url := "uB", video_youtube_id := "def456", video_title := "tB",
    video_duration := 123, video_views := 5, video_likes := 1, video_language := "en",
    video_comments := 0, created_at := 4, updated_at := 5 }

/-- A store state holding the two videos A and B. -/
def cxVStateAB : DBState :=
  { nextId := 3, clock := 6, keywords := [(0, cxKeywordDoc)],
    videos := [(1, cxVideoDoc), (2, cxVideoDocB)], transcripts := [], articles := [] }

/-! ### Helper lemmas about the identifier encoding -/

theorem digitChar_toNat : ∀ m, m < 10 → (digitChar m).toNat = 48 + m := by decide

theorem digitChar_isDigit : ∀ m, m < 10 → (digitChar m).isDigit = true := by decide

theorem digitsVal_append (cs : List Char) (c : Char) :
    digitsVal (cs ++ [c]) = 10 * digitsVal cs + (c.toNat - 48) := by
  simp [digitsVal, List.foldl_append]

theorem natDigitsAux_all_digits (fuel n : Nat) :
    (natDigitsAux fuel n).all Char.isDigit = true := by
  induction fuel generalizing n with
  | zero => simp [natDigitsAux]
  | succ fuel ih =>
      by_cases h : n = 0
      · simp [natDigitsAux, h]
      · simp only [natDigitsAux, h, if_false, List.all_append]
        simp [ih, digitChar_isDigit (n % 10) (Nat.mod_lt n (by omega))]

theorem natDigitsAux_val (fuel n : Nat) (h : n < fuel) :
    digitsVal (natDigitsAux fuel n) = n := by
  induction fuel generalizing n with
  | zero => omega
  | succ fuel ih =>
      by_cases h0 : n = 0
      · simp [natDigitsAux, h0, digitsVal]
      · have hdiv : n / 10 < fuel := by
          have : n / 10 < n := Nat.div_lt_self (by omega) (by omega)
          omega
        simp only [natDigitsAux, h0, if_false]
        rw [digitsVal_append, ih (n / 10) hdiv,
          digitChar_toNat (n % 10) (Nat.mod_lt n (by omega))]
        omega

theorem natDigits_all_digits (n : Nat) : (natDigits n).all Char.isDigit = true := by
  by_cases h : n = 0
  · simp [natDigits, h, digitChar_isDigit 0 (by omega)]
  · simp [natDigits, h, natDigitsAux_all_digits]

theorem digitsVal_natDigits (n : Nat) : digitsVal (natDigits n) = n := by
  by_cases h : n = 0
  · simp [natDigits, h, digitsVal, digitChar_toNat 0 (by omega)]
  · simp [natDigits, h, natDigitsAux_val (n + 1) n (by omega)]

theorem natDigits_ne_nil (n : Nat) : natDigits n ≠ [] := by
  by_cases h : n = 0
  · simp [natDigits, h]
  · simp only [natDigits, h, if_false]
    cases hfm : natDigitsAux (n + 1) n with
    | nil =>
        exfalso
        have := natDigitsAux_val (n + 1) n (by omega)
        rw [hfm] at this
        simp [digitsVal] at this
        omega
    | cons c cs => simp

/-- Round trip: the external string form of a store identifier parses back to
the identifier.  This is the str(ObjectId) / ObjectId(str) inverse pair. -/
theorem parseObjectId_objectIdStr (n : Nat) : parseObjectId (objectIdStr n) = .ok n := by
  unfold parseObjectId objectIdStr
  cases hd : natDigits n with
  | nil => exact absurd hd (natDigits_ne_nil n)
  | cons c cs =>
      have hall : (c :: cs).all Char.isDigit = true := by
        rw [← hd]; exact natDigits_all_digits n
      have hval : digitsVal (c :: cs) = n := by
        rw [← hd]; exact digitsVal_natDigits n
      simp [hd, hall, hval]

/-- A string is a well-formed store identifier when it is the external form of
some native identifier. -/
def wfId (idStr : String) : Prop := ∃ n, idStr = objectIdStr n

theorem wfId_parse {idStr : String} (h : wfId idStr) :
    ∃ n, parseObjectId idStr = .ok n := by
  obtain ⟨n, rfl⟩ := h
  exact ⟨n, parseObjectId_objectIdStr n⟩

/-! ### Helper lemmas about association-list lookups -/

theorem find?_eq_none_of_lt {α : Type} (l : List (Nat × α)) (k : Nat)
    (h : ∀ p ∈ l, p.fst < k) : l.find? (fun p => p.fst == k) = Option.none := by
  rw [List.find?_eq_none]
  intro x hx
  have := h x hx
  simp only [beq_iff_eq]
  omega

theorem find?_append_fresh {α : Type} (l : List (Nat × α)) (k : Nat) (d : α)
    (h : ∀ p ∈ l, p.fst < k) :
    (l ++ [(k, d)]).find? (fun p => p.fst == k) = some (k, d) := by
  rw [List.find?_append, find?_eq_none_of_lt l k h]
  simp

/-! ### Equation and invariant lemmas for the pipeline stages -/

theorem insertKeywordDoc_eq (times : Nat → Nat) (s : DBState) (kw : String)
    (rank score : Int) (plat reg : String) (md : List (String × PyVal)) :
    insertKeywordDoc times s kw rank score plat reg md
      = (objectIdStr s.nextId,
         { nextId := s.nextId + 1, clock := s.clock + 2,
           keywords := s.keywords ++ [(s.nextId,
             { keyword := kw, rank := rank, score := score, platform := plat, region := reg,
               metadata := md, created_at := times s.clock,
               updated_at := times (s.clock + 1) })],
           videos := s.videos, transcripts := s.transcripts, articles := s.articles }) := rfl

theorem insertVideoDoc_eq (times : Nat → Nat) (s : DBState) (kid : String) (kn : Nat)
    (hpk : parseObjectId kid = .ok kn) (cat th u yid t : String) (dur vw lk : Int)
    (lang : String) (cm : Int) :
    insertVideoDoc times s kid cat th u yid t dur vw lk lang cm
      = .ok (objectIdStr s.nextId,
        { nextId := s.nextId + 1, clock := s.clock + 2, keywords := s.keywords,
          videos := s.videos ++ [(s.nextId,
            { keyword_id := kn, video_category := cat, video_thumbnail_url := th,
              video_url := u, video_youtube_id := yid, video_title := t,
              video_duration := dur, video_views := vw, video_likes := lk,
              video_language := lang, video_comments := cm,
              created_at := times s.clock, updated_at := times (s.clock + 1) })],
          transcripts := s.transcripts, articles := s.articles }) := by
  simp only [insertVideoDoc, hpk, bind, Except.bind, utcnow, pure, Except.pure]

theorem insertTranscriptDoc_eq (times : Nat → Nat) (s : DBState) (vid : String) (vn : Nat)
    (hpv : parseObjectId vid = .ok vn) (text lang : String) :
    insertTranscriptDoc times s vid text lang
      = .ok (objectIdStr s.nextId,
        { nextId := s.nextId + 1, clock := s.clock + 2, keywords := s.keywords,
          videos := s.videos,
          transcripts := s.transcripts ++ [(s.nextId,
            { video_id := vn, transcript := text, language := lang,
              created_at := times s.clock, updated_at := times (s.clock + 1) })],
          articles := s.articles }) := by
  simp only [insertTranscriptDoc, hpv, bind, Except.bind, utcnow, pure, Except.pure]

theorem findKeywordById_eq (s : DBState) (kid : String) (kn : Nat)
    (hpk : parseObjectId kid = .ok kn) :
    findKeywordById s kid
      = .ok ((s.keywords.find? (fun p => p.fst == kn)).map Prod.snd) := by
  simp only [findKeywordById, hpk, bind, Except.bind, pure, Except.pure]

theorem findVideoById_eq (s : DBState) (vid : String) (vn : Nat)
    (hpv : parseObjectId vid = .ok vn) :
    findVideoById s vid
      = .ok ((s.videos.find? (fun p => p.fst == vn)).map Prod.snd) := by
  simp only [findVideoById, hpv, bind, Except.bind, pure, Except.pure]

/-- Every id accumulated by the record loop is in the store's external id
form, provided the already accumulated ids are. -/
theorem fetchRecords_wf (times : Nat → Nat) (platform : String) (region : PyVal) :
    ∀ (recs : List RawKeyword) (s : DBState) (ids : List String),
      (∀ i ∈ ids, wfId i) →
      ∀ i ∈ (DailyWorkflow.fetchRecords times platform region s ids recs).snd, wfId i := by
  intro recs
  induction recs with
  | nil => intro s ids h; exact h
  | cons r rest ih =>
      intro s ids h
      cases hn : normalizeRecord platform region r with
      | error e =>
          simp only [DailyWorkflow.fetchRecords, hn]
          exact ih s ids h
      | ok pay =>
          simp only [DailyWorkflow.fetchRecords, hn, insertKeywordDoc_eq]
          apply ih
          intro i hi
          rcases List.mem_append.mp hi with h1 | h2
          · exact h i h1
          · rw [List.mem_singleton] at h2
            exact ⟨s.nextId, h2⟩

/-- Every id accumulated over the fetch batches is well formed. -/
theorem fetchBatches_wf (times : Nat → Nat) :
    ∀ (batches : List FetchBatch) (s : DBState) (ids : List String),
      (∀ i ∈ ids, wfId i) →
      ∀ i ∈ (DailyWorkflow.fetchBatches times s ids batches).snd, wfId i := by
  intro batches
  induction batches with
  | nil => intro s ids h; exact h
  | cons b rest ih =>
      intro s ids h
      cases hb : b.fetched with
      | error e =>
          simp only [DailyWorkflow.fetchBatches, hb]
          exact ih s ids h
      | ok recs =>
          simp only [DailyWorkflow.fetchBatches, hb]
          exact ih _ _ (fetchRecords_wf times b.platform b.region recs s ids h)

/-- Every keyword id produced by the fetch stage is well formed. -/
theorem fetch_wf (times : Nat → Nat) (s : DBState) (batches : List FetchBatch) :
    ∀ i ∈ (DailyWorkflow.fetch_trending_keywords times s batches).snd, wfId i :=
  fetchBatches_wf times batches s [] (by intro i h; simp at h)

/-- The result loop of the search stage succeeds when every result's duration
parses and the owning keyword id is well formed, and it only accumulates
well-formed video ids. -/
theorem searchResultsLoop_ok (times : Nat → Nat) (kid : String) (kn : Nat)
    (hpk : parseObjectId kid = .ok kn) :
    ∀ (results : List SearchResult) (s : DBState) (vids : List String),
      (∀ v ∈ results, ∃ dsec, parse_duration v.duration = .ok dsec) →
      (∀ i ∈ vids, wfId i) →
      ∃ s1 vids1,
        DailyWorkflow.searchResultsLoop times kid s vids results = .ok (s1, vids1)
          ∧ ∀ i ∈ vids1, wfId i := by
  intro results
  induction results with
  | nil => intro s vids _ hv; exact ⟨s, vids, rfl, hv⟩
  | cons v rest ih =>
      intro s vids hd hv
      obtain ⟨dsec, hdur⟩ := hd v (List.mem_cons_self v rest)
      have hins := insertVideoDoc_eq times s kid kn hpk "education" v.thumbnail_url v.url
        v.video_id v.title dsec v.view_count v.like_count "en" v.comment_count
      simp only [DailyWorkflow.searchResultsLoop, hdur, hins, bind, Except.bind]
      apply ih
      · intro x hx
        exact hd x (List.mem_cons_of_mem v hx)
      · intro i hi
        rcases List.mem_append.mp hi with h1 | h2
        · exact hv i h1
        · rw [List.mem_singleton] at h2
          exact ⟨s.nextId, h2⟩

/-- The keyword loop of the search stage succeeds when every keyword id is
well formed and the searcher succeeds with parseable durations on every
call; it only accumulates well-formed video ids. -/
theorem searchKeywordsLoop_ok (times : Nat → Nat)
    (searcher : String → String → Except PyErr (List SearchResult))
    (hs : ∀ q rc, ∃ l, searcher q rc = .ok l
        ∧ ∀ v ∈ l, ∃ dsec, parse_duration v.duration = .ok dsec) :
    ∀ (kids : List String) (s : DBState) (vids : List String),
      (∀ k ∈ kids, wfId k) → (∀ i ∈ vids, wfId i) →
      ∃ s1 vids1,
        DailyWorkflow.searchKeywordsLoop times searcher s vids kids = .ok (s1, vids1)
          ∧ ∀ i ∈ vids1, wfId i := by
  intro kids
  induction kids with
  | nil => intro s vids _ hv; exact ⟨s, vids, rfl, hv⟩
  | cons kid rest ih =>
      intro s vids hk hv
      obtain ⟨kn, hpk⟩ := wfId_parse (hk kid (List.mem_cons_self kid rest))
      have hrest : ∀ k ∈ rest, wfId k := fun k h => hk k (List.mem_cons_of_mem kid h)
      simp only [DailyWorkflow.searchKeywordsLoop, findKeywordById_eq s kid kn hpk,
        bind, Except.bind]
      cases hlk : (s.keywords.find? (fun p => p.fst == kn)).map Prod.snd with
      | none => exact ih s vids hrest hv
      | some kd =>
          obtain ⟨l, hsl, hdur⟩ := hs kd.keyword kd.region
          obtain ⟨sa, va, hres, hwfa⟩ := searchResultsLoop_ok times kid kn hpk l s vids hdur hv
          simp only [hsl, hres, bind, Except.bind]
          exact ih sa va hrest hwfa

/-- The download loop succeeds when every video id is well formed and the
downloader succeeds on every url. -/
theorem downloadLoop_ok (downloader : String → Except PyErr String) (s : DBState)
    (hd : ∀ url, ∃ p, downloader url = .ok p) :
    ∀ (vids : List String) (pm : List (String × String)),
      (∀ v ∈ vids, wfId v) →
      ∃ pm1, DailyWorkflow.downloadLoop downloader s pm vids = .ok pm1 := by
  intro vids
  induction vids with
  | nil => intro pm _; exact ⟨pm, rfl⟩
  | cons vid rest ih =>
      intro pm hv
      obtain ⟨vn, hpv⟩ := wfId_parse (hv vid (List.mem_cons_self vid rest))
      have hrest : ∀ v ∈ rest, wfId v := fun v h => hv v (List.mem_cons_of_mem vid h)
      simp only [DailyWorkflow.downloadLoop, findVideoById_eq s vid vn hpv, bind, Except.bind]
      cases (s.videos.find? (fun p => p.fst == vn)).map Prod.snd with
      | none => exact ih pm hrest
      | some vd =>
          obtain ⟨p, hp⟩ := hd vd.video_url
          simp only [hp, bind, Except.bind]
          exact ih _ hrest

/-- Membership invariant of one video insert: any video in the new store was
already there, or carries the inserted language and category. -/
theorem insertVideoDoc_mem (times : Nat → Nat) (s : DBState) (kid : String)
    (cat th u yid t : String) (dur vw lk : Int) (lang : String) (cm : Int)
    (v : String) (s1 : DBState)
    (h : insertVideoDoc times s kid cat th u yid t dur vw lk lang cm = .ok (v, s1)) :
    ∀ p ∈ s1.videos, p ∈ s.videos
      ∨ (p.snd.video_language = lang ∧ p.snd.video_category = cat) := by
  cases hpk : parseObjectId kid with
  | error e =>
      rw [insertVideoDoc] at h
      simp only [hpk, bind, Except.bind] at h
      exact Except.noConfusion h
  | ok kn =>
      rw [insertVideoDoc_eq times s kid kn hpk cat th u yid t dur vw lk lang cm] at h
      injection h with h
      injection h with h1 h2
      subst h2
      intro p hp
      simp only at hp
      rcases List.mem_append.mp hp with h1 | h2
      · exact Or.inl h1
      · rw [List.mem_singleton] at h2
        subst h2
        exact Or.inr ⟨rfl, rfl⟩

/-- Membership invariant of the search result loop: every video in the final
store was already present or was inserted with language en and category
education. -/
theorem searchResultsLoop_mem (times : Nat → Nat) (kid : String) :
    ∀ (results : List SearchResult) (s : DBState) (vids : List String)
      (s1 : DBState) (vids1 : List String),
      DailyWorkflow.searchResultsLoop times kid s vids results = .ok (s1, vids1) →
      ∀ p ∈ s1.videos, p ∈ s.videos
        ∨ (p.snd.video_language = "en" ∧ p.snd.video_category = "education") := by
  intro results
  induction results with
  | nil =>
      intro s vids s1 vids1 h p hp
      rw [DailyWorkflow.searchResultsLoop] at h
      injection h with h
      injection h with h1 h2
      subst h1
      exact Or.inl hp
  | cons v rest ih =>
      intro s vids s1 vids1 h p hp
      rw [DailyWorkflow.searchResultsLoop] at h
      cases hdur : parse_duration v.duration with
      | error e =>
          simp only [hdur, bind, Except.bind] at h
          exact Except.noConfusion h
      | ok dsec =>
          simp only [hdur, bind, Except.bind] at h
          cases hins : insertVideoDoc times s kid "education" v.thumbnail_url v.url
              v.video_id v.title dsec v.view_count v.like_count "en" v.comment_count with
          | error e =>
              simp only [hins, bind, Except.bind] at h
              exact Except.noConfusion h
          | ok pr =>
              simp only [hins, bind, Except.bind] at h
              rcases ih pr.snd (vids ++ [pr.fst]) s1 vids1 h p hp with hmem | hconst
              · exact insertVideoDoc_mem times s kid "education" v.thumbnail_url v.url
                  v.video_id v.title dsec v.view_count v.like_count "en" v.comment_count
                  pr.fst pr.snd (by rw [hins]) p hmem
              · exact Or.inr hconst

/-- Membership invariant of the keyword loop of the search stage. -/
theorem searchKeywordsLoop_mem (times : Nat → Nat)
    (searcher : String → String → Except PyErr (List SearchResult)) :
    ∀ (kids : List String) (s : DBState) (vids : List String)
      (s1 : DBState) (vids1 : List String),
      DailyWorkflow.searchKeywordsLoop times searcher s vids kids = .ok (s1, vids1) →
      ∀ p ∈ s1.videos, p ∈ s.videos
        ∨ (p.snd.video_language = "en" ∧ p.snd.video_category = "education") := by
  intro kids
  induction kids with
  | nil =>
      intro s vids s1 vids1 h p hp
      rw [DailyWorkflow.searchKeywordsLoop] at h
      injection h with h
      injection h with h1 h2
      subst h1
      exact Or.inl hp
  | cons kid rest ih =>
      intro s vids s1 vids1 h p hp
      rw [DailyWorkflow.searchKeywordsLoop] at h
      cases hkf : findKeywordById s kid with
      | error e =>
          simp only [hkf, bind, Except.bind] at h
          exact Except.noConfusion h
      | ok kd? =>
          simp only [hkf, bind, Except.bind] at h
          cases kd? with
          | none => exact ih s vids s1 vids1 h p hp
          | some kd =>
              cases hsl : searcher kd.keyword kd.region with
              | error e =>
                  simp only [hsl, bind, Except.bind] at h
                  exact Except.noConfusion h
              | ok l =>
                  simp only [hsl, bind, Except.bind] at h
                  cases hres : DailyWorkflow.searchResultsLoop times kid s vids l with
                  | error e =>
                      simp only [hres, bind, Except.bind] at h
                      exact Except.noConfusion h
                  | ok pr =>
                      simp only [hres, bind, Except.bind] at h
                      rcases ih pr.fst pr.snd s1 vids1 h p hp with hmem | hconst
                      · exact searchResultsLoop_mem times kid l s vids pr.fst pr.snd
                          (by rw [hres]) p hmem
                      · exact Or.inr hconst

/-! ### Claim theorems -/

/-- C4: parse_duration maps ISO-8601 duration strings to integer seconds with
each missing token contributing zero, for any subset of the H, M, S tokens:
the five values claimed by the spec hold, and every one of the eight token
subsets (including the degenerate PT with no tokens, which yields 0) is
handled. -/
theorem claim4_parse_duration :
    parse_duration "PT7M32S" = .ok 452
    ∧ parse_duration "PT1H2M10S" = .ok 3730
    ∧ parse_duration "PT45S" = .ok 45
    ∧ parse_duration "PT2H" = .ok 7200
    ∧ parse_duration "PT" = .ok 0
    ∧ parse_duration "PT1H2M3S" = .ok 3723
    ∧ parse_duration "PT1H2M" = .ok 3720
    ∧ parse_duration "PT1H3S" = .ok 3603
    ∧ parse_duration "PT2M3S" = .ok 123
    ∧ parse_duration "PT1H" = .ok 3600
    ∧ parse_duration "PT2M" = .ok 120
    ∧ parse_duration "PT3S" = .ok 3 :=
  ⟨rfl, rfl, rfl, rfl, rfl, rfl, rfl, rfl, rfl, rfl, rfl, rfl⟩

/-- C5: region resolution is case-insensitive (two codes with the same
uppercasing resolve identically, and in particular tw and TW resolve to the
same region), the stored codes are canonically uppercase, and every code
whose uppercasing is outside the closed member set fails to resolve (None
from from_code, false from is_valid_code) rather than defaulting; ZZ is
such a code. -/
theorem claim5_region_resolution :
    (∀ s t : String, pyUpper s = pyUpper t → Region.from_code s = Region.from_code t)
    ∧ Region.from_code "tw" = some Region.TAIWAN
    ∧ Region.from_code "TW" = some Region.TAIWAN
    ∧ (∀ r : Region, pyUpper r.value = r.value)
    ∧ (∀ code : String, pyUpper code ∉ Region.members.map Region.value →
        Region.from_code code = Option.none ∧ Region.is_valid_code code = false)
    ∧ Region.from_code "ZZ" = Option.none
    ∧ Region.is_valid_code "ZZ" = false := by
  refine ⟨?_, rfl, rfl, ?_, ?_, rfl, rfl⟩
  · intro s t h
    unfold Region.from_code
    rw [h]
  · intro r
    cases r <;> rfl
  · intro code h
    constructor
    · rw [Region.from_code, List.find?_eq_none]
      intro r hr
      simp only [beq_iff_eq]
      intro hv
      exact h (hv ▸ List.mem_map_of_mem Region.value hr)
    · rw [Region.is_valid_code]
      simpa using h

/-- C5 witness: the case-insensitivity part at tw, and the closed-set part at
the unsupported code Zz. -/
theorem claim5_region_resolution_witness :
    Region.from_code "tW" = Region.from_code "Tw"
    ∧ (Region.from_code "Zz" = Option.none ∧ Region.is_valid_code "Zz" = false) :=
  ⟨claim5_region_resolution.1 "tW" "Tw" rfl,
   claim5_region_resolution.2.2.2.2.1 "Zz" (by decide)⟩

/-- C8 counterexample: looking up an identifier string that is not in the
store's native identifier form does not produce an absent result — it
raises InvalidId (from the ObjectId constructor inside find_by_id), which
refutes the claim that such lookups never surface as an exception. -/
theorem claim8_counterexample :
    findKeywordById emptyDB "garbage" = .error .invalidId := rfl

/-- C8 (amended): for identifier strings in the store's native form, a lookup
that matches nothing yields an absent result (no exception); but for
identifier strings that are not in the native form, find_by_id raises
InvalidId from the ObjectId constructor instead of returning an absent
result. -/
theorem claim8_amended :
    (∀ (s : DBState) (n : Nat), (∀ p ∈ s.keywords, p.fst ≠ n) →
        findKeywordById s (objectIdStr n) = .ok Option.none)
    ∧ (∀ (s : DBState) (idStr : String) (e : PyErr), parseObjectId idStr = .error e →
        findKeywordById s idStr = .error e) := by
  constructor
  · intro s n h
    have hfind : s.keywords.find? (fun p => p.fst == n) = Option.none := by
      rw [List.find?_eq_none]
      intro x hx
      simpa using h x hx
    simp [findKeywordById, parseObjectId_objectIdStr, hfind]
  · intro s idStr e h
    simp [findKeywordById, h]

/-- C8 witness: the no-match branch at a concrete well-formed identifier. -/
theorem claim8_amended_witness :
    findKeywordById emptyDB (objectIdStr 3) = .ok Option.none :=
  claim8_amended.1 emptyDB 3 (by intro p hp; simp [emptyDB] at hp)

/-- C6 counterexample: under a clock that advances between the two utcnow()
reads of insert_one (reads 0 and 1 of a strictly increasing time source), a
keyword insert stores created_at = 0 and updated_at = 1 — the insert is
resolvable via find_by_id, but the record does not satisfy
created_at = updated_at, refuting the claim. -/
theorem claim6_counterexample :
    findKeywordById (insertKeywordDoc cxTimes emptyDB "cats" 1 0 "google_trends" "TW" []).snd
        (insertKeywordDoc cxTimes emptyDB "cats" 1 0 "google_trends" "TW" []).fst
      = .ok (some { keyword := "cats", rank := 1, score := 0, platform := "google_trends",
                    region := "TW", metadata := [], created_at := 0, updated_at := 1 })
    ∧ (0 : Nat) ≠ 1 :=
  ⟨rfl, by omega⟩

/-- C6 (amended): a successful keyword insert returns an id that find_by_id
resolves to the inserted record; the record's created_at and updated_at are
the values of two successive clock reads, so under a monotone clock
created_at is at most updated_at — they are equal exactly when the two
reads coincide, not in general (insert_one stamps them with two separate
utcnow() calls). -/
theorem claim6_amended (times : Nat → Nat) (s : DBState)
    (hmono : ∀ i j, i ≤ j → times i ≤ times j)
    (hfresh : ∀ p ∈ s.keywords, p.fst < s.nextId)
    (kw : String) (rank score : Int) (platform region : String)
    (md : List (String × PyVal)) :
    findKeywordById (insertKeywordDoc times s kw rank score platform region md).snd
        (insertKeywordDoc times s kw rank score platform region md).fst
      = .ok (some { keyword := kw, rank := rank, score := score, platform := platform,
                    region := region, metadata := md,
                    created_at := times s.clock, updated_at := times (s.clock + 1) })
    ∧ times s.clock ≤ times (s.clock + 1) := by
  constructor
  · have hfind := find?_append_fresh s.keywords s.nextId
      ({ keyword := kw, rank := rank, score := score, platform := platform,
         region := region, metadata := md, created_at := times s.clock,
         updated_at := times (s.clock + 1) } : KeywordDoc) hfresh
    simp only [insertKeywordDoc, utcnow, findKeywordById, parseObjectId_objectIdStr,
      bind, Except.bind, pure, Except.pure, hfind, Option.map_some]
    rfl
  · exact hmono s.clock (s.clock + 1) (Nat.le_succ s.clock)

/-- C6 witness: the amended claim at a concrete insert under the identity
clock. -/
theorem claim6_amended_witness :
    findKeywordById (insertKeywordDoc cxTimes emptyDB "dogs" 2 7 "google_trends" "JP" []).snd
        (insertKeywordDoc cxTimes emptyDB "dogs" 2 7 "google_trends" "JP" []).fst
      = .ok (some { keyword := "dogs", rank := 2, score := 7, platform := "google_trends",
                    region := "JP", metadata := [], created_at := 0, updated_at := 1 })
    ∧ (0 : Nat) ≤ 1 :=
  claim6_amended cxTimes emptyDB (fun i j h => h) (by intro p hp; simp [emptyDB] at hp)
    "dogs" 2 7 "google_trends" "JP" []

/-- C7 counterexample: with an article in the store and a clock that advances
between calls, setting published to true twice in a row makes the second
call report a modification (True), because update_one re-stamps updated_at
with a fresh utcnow() and the document therefore changes again; this
refutes the claim that the second call reports no modification. -/
theorem claim7_counterexample :
    (update_publish_status cxTimes
        (update_publish_status cxTimes cxArtState (objectIdStr 0) true).snd
        (objectIdStr 0) true).fst = true := rfl

/-- Updating the entry found under a key leaves it findable under that key
with the new value. -/
theorem find?_map_update {α : Type} (l : List (Nat × α)) (oid : Nat) (d d2 : α)
    (h : l.find? (fun p => p.fst == oid) = some (oid, d)) :
    (l.map (fun p => if p.fst == oid then (oid, d2) else p)).find? (fun p => p.fst == oid)
      = some (oid, d2) := by
  induction l with
  | nil => simp at h
  | cons q rest ih =>
      by_cases hq : (q.fst == oid) = true
      · simp only [List.map_cons, hq, if_true]
        exact List.find?_cons_of_pos _ (by simp)
      · rw [List.find?_cons_of_neg _ (by simp [hq])] at h
        simp only [List.map_cons, hq, if_false]
        rw [List.find?_cons_of_neg _ (by simp [hq])]
        exact ih h

/-- C7 (amended): repeating the publish-status update with the same value
does not error (the operation totally returns a boolean), but because
update_one re-stamps updated_at with a fresh clock read, the second call
reports a modification exactly when the fresh read differs from the one
stored by the first call; it reports no change only when the two reads
coincide. -/
theorem claim7_amended (times : Nat → Nat) (s : DBState) (aid : String) (oid : Nat)
    (d : ArticleDoc) (v : Bool)
    (hid : parseObjectId aid = .ok oid)
    (hfind : s.articles.find? (fun p => p.fst == oid) = some (oid, d)) :
    (update_publish_status times (update_publish_status times s aid v).snd aid v).fst
      = decide (times (s.clock + 1) ≠ times s.clock) := by
  have hfind2 := find?_map_update s.articles oid (oid, d).snd
    ({ d with published := v, updated_at := times s.clock } : ArticleDoc) hfind
  simp only [update_publish_status, hid, utcnow, hfind, hfind2]
  obtain ⟨k, t, vid, lng, ttl, cnt, tg, seo, pub, ca, ua⟩ := d
  simp only [decide_eq_decide, ne_eq, ArticleDoc.mk.injEq]
  simp

/-- C7 witness: the amended claim at the concrete one-article store under the
identity clock; the second identical update reports a modification. -/
theorem claim7_amended_witness :
    (update_publish_status cxTimes
        (update_publish_status cxTimes cxArtState (objectIdStr 0) true).snd
        (objectIdStr 0) true).fst
      = decide (cxTimes (cxArtState.clock + 1) ≠ cxTimes cxArtState.clock) :=
  claim7_amended cxTimes cxArtState (objectIdStr 0) 0
    { keyword_id := 5, transcript_id := 6, video_id := 7, article_language := "en",
      title := "Title", content := "Content", tags := "tags", seo_metadata := [],
      published := false, created_at := 0, updated_at := 1 }
    true (parseObjectId_objectIdStr 0) rfl

/-- C2 counterexample: a batch holding a well-formed record and a record with
a wrong-typed (integer) keyword yields two inserts — the wrong-typed record
is coerced by str() and inserted as the keyword 42 rather than dropped,
refuting the claim that exactly the malformed records are dropped. -/
theorem claim2_counterexample :
    ((DailyWorkflow.fetch_trending_keywords cxTimes emptyDB
        [{ region := .str "TW", platform := "google_trends",
           fetched := .ok [cxGoodRec, cxIntKwRec] }]).fst.keywords.map
      (fun p => p.snd.keyword)) = ["lofi", "42"]
    ∧ (DailyWorkflow.fetch_trending_keywords cxTimes emptyDB
        [{ region := .str "TW", platform := "google_trends",
           fetched := .ok [cxGoodRec, cxIntKwRec] }]).snd.length = 2 :=
  ⟨rfl, rfl⟩

/-- C2 (amended): the record loop of fetch_trending_keywords never raises —
it inserts exactly the records whose coercion succeeds, in order, and
drops exactly the records whose coercion raises ValueError or TypeError
(e.g. a non-numeric rank); a record whose keyword is merely of the wrong
type is not malformed for this loop: str() coerces it and the record is
inserted. -/
theorem claim2_amended (times : Nat → Nat) (platform : String) (region : PyVal) :
    (∀ (recs : List RawKeyword) (s : DBState) (ids : List String),
        DailyWorkflow.fetchRecords times platform region s ids recs
          = insertPayloads times s ids
              (recs.filterMap (fun r => okValue (normalizeRecord platform region r))))
    ∧ (∀ (n : Int) (k : Int),
        normalizeRecord platform region
            { keyword := .int n, rank := .int k, score := .pynone, metadata := Option.none }
          = .ok { keyword := intToString n, rank := k, score := 0, platform := platform,
                  region := regionString region, metadata := [] }) := by
  constructor
  · intro recs
    induction recs with
    | nil => intro s ids; rfl
    | cons r rest ih =>
        intro s ids
        cases h : normalizeRecord platform region r with
        | error e =>
            simp only [DailyWorkflow.fetchRecords, h, List.filterMap_cons, okValue]
            exact ih s ids
        | ok pay =>
            simp only [DailyWorkflow.fetchRecords, h, List.filterMap_cons, okValue,
              insertPayloads]
            exact ih _ _
  · intro n k
    rfl

/-- C9 counterexample: a raw record whose keyword is whitespace only (empty
after trimming) is not rejected — it is inserted verbatim, refuting the
claim that no empty-after-trim keyword text is ever inserted. -/
theorem claim9_counterexample :
    ((DailyWorkflow.fetch_trending_keywords cxTimes emptyDB
        [{ region := .str "TW", platform := "google_trends",
           fetched := .ok [cxWsRec] }]).fst.keywords.map (fun p => p.snd.keyword)) = ["  "]
    ∧ stripChars "  ".data = [] :=
  ⟨rfl, rfl⟩

/-- C9 (amended): the normalizer performs no empty-after-trim rejection: a
record whose keyword text strips to nothing is coerced and inserted like
any other well-formed record, keyword text preserved verbatim. -/
theorem claim9_amended (times : Nat → Nat) (platform : String) (region : PyVal)
    (s : DBState) (ids : List String) (w : String) (k : Int)
    (hw : stripChars w.data = []) :
    (DailyWorkflow.fetchRecords times platform region s ids
        [{ keyword := .str w, rank := .int k, score := .pynone,
           metadata := Option.none }]).fst.keywords
      = s.keywords
        ++ [(s.nextId,
             { keyword := w, rank := k, score := 0, platform := platform,
               region := regionString region, metadata := [],
               created_at := times s.clock, updated_at := times (s.clock + 1) })] := rfl

/-- C9 witness: the amended claim at the whitespace keyword. -/
theorem claim9_amended_witness :
    (DailyWorkflow.fetchRecords cxTimes "google_trends" (.str "TW") emptyDB []
        [{ keyword := .str "  ", rank := .int 1, score := .pynone,
           metadata := Option.none }]).fst.keywords
      = emptyDB.keywords
        ++ [(emptyDB.nextId,
             { keyword := "  ", rank := 1, score := 0, platform := "google_trends",
               region := regionString (.str "TW"), metadata := [],
               created_at := cxTimes emptyDB.clock,
               updated_at := cxTimes (emptyDB.clock + 1) })] :=
  claim9_amended cxTimes "google_trends" (.str "TW") emptyDB [] "  " 1 rfl

/-- C1 counterexample: a run in which the first batch stage has begun (one
keyword is fetched and inserted), the search stage finds one video, and the
download of that single video fails, does not reach Done — the downloader
failure escalates uncaught through download_videos and run() re-raises it,
refuting the claim that individual-item failures never escalate to a
run-level failure. -/
theorem claim1_counterexample :
    DailyWorkflow.run cxTimes cxOraclesDownFail emptyDB
      = .error (.collaborator "network") := rfl

/-- C1 (amended): failures are isolated only in the keyword-fetch stage and
the transcription stage — for arbitrary fetch outcomes (including fetcher
exceptions and malformed records) and an arbitrary transcriber (which may
fail on every item), the run reaches Done, reporting the counts of
keywords fetched, videos found and videos downloaded (no transcript count
is reported); but this requires every search call to succeed with
parseable durations and every download to succeed, because the search and
download stages have no per-item exception handling. -/
theorem claim1_amended (times : Nat → Nat) (o : DailyWorkflow.Oracles) (s : DBState)
    (hs : ∀ q rc, ∃ l, o.searcher q rc = .ok l
        ∧ ∀ v ∈ l, ∃ dsec, parse_duration v.duration = .ok dsec)
    (hd : ∀ url, ∃ p, o.downloader url = .ok p) :
    ∃ (report : DailyWorkflow.RunReport) (s3 : DBState),
      DailyWorkflow.run times o s = .ok (report, s3)
        ∧ report.keywords_fetched
            = (DailyWorkflow.fetch_trending_keywords times s o.batches).snd.length := by
  obtain ⟨s2, vids, hsearch, hvwf⟩ :=
    searchKeywordsLoop_ok times o.searcher hs
      (DailyWorkflow.fetch_trending_keywords times s o.batches).snd
      (DailyWorkflow.fetch_trending_keywords times s o.batches).fst []
      (fetch_wf times s o.batches) (by intro i h; simp at h)
  obtain ⟨pm, hpm⟩ := downloadLoop_ok o.downloader s2 hd vids [] hvwf
  have hsearch2 : DailyWorkflow.search_videos times o.searcher
      (DailyWorkflow.fetch_trending_keywords times s o.batches).fst
      (DailyWorkflow.fetch_trending_keywords times s o.batches).snd = .ok (s2, vids) := hsearch
  have hpm2 : DailyWorkflow.download_videos o.downloader s2 vids = .ok pm := hpm
  refine ⟨{ keywords_fetched :=
              (DailyWorkflow.fetch_trending_keywords times s o.batches).snd.length,
            videos_found := vids.length, videos_downloaded := pm.length },
          DailyWorkflow.transcribe_videos times o.transcriber s2 vids pm, ?_, rfl⟩
  show (do
      let pr ← DailyWorkflow.search_videos times o.searcher
          (DailyWorkflow.fetch_trending_keywords times s o.batches).fst
          (DailyWorkflow.fetch_trending_keywords times s o.batches).snd
      let pmap ← DailyWorkflow.download_videos o.downloader pr.fst pr.snd
      let s3 := DailyWorkflow.transcribe_videos times o.transcriber pr.fst pr.snd pmap
      pure (({ keywords_fetched :=
                 (DailyWorkflow.fetch_trending_keywords times s o.batches).snd.length,
               videos_found := pr.snd.length,
               videos_downloaded := pmap.length } : DailyWorkflow.RunReport), s3)) = _
  simp only [hsearch2, hpm2, bind, Except.bind, pure, Except.pure]

/-- C1 witness: the amended claim at the concrete all-success oracles. -/
theorem claim1_amended_witness :
    ∃ (report : DailyWorkflow.RunReport) (s3 : DBState),
      DailyWorkflow.run cxTimes cxOraclesOk emptyDB = .ok (report, s3)
        ∧ report.keywords_fetched
            = (DailyWorkflow.fetch_trending_keywords cxTimes emptyDB
                cxOraclesOk.batches).snd.length :=
  claim1_amended cxTimes cxOraclesOk emptyDB
    (by
      intro q rc
      refine ⟨[cxSearchRes], rfl, ?_⟩
      intro v hv
      rw [List.mem_singleton] at hv
      subst hv
      exact ⟨45, rfl⟩)
    (by intro url; exact ⟨"/tmp/v.mp4", rfl⟩)

/-- C3 counterexample: a run in which the download collaborator fails for
video A (url u) and succeeds for video B (url uB) does not complete with
one transcript — the failure for A escalates and the run fails, refuting
the claim that A would simply be absent from the mapping and the run would
still complete. -/
theorem claim3_counterexample :
    DailyWorkflow.run cxTimes cxOraclesAB emptyDB = .error (.collaborator "downA") := rfl

/-- C3 (amended): a download-collaborator failure for video A escalates — the
DownloadingMedia stage itself fails and no mapping is handed to the next
stage.  Only when A is absent from the mapping for another reason does the
claimed isolation hold: the Transcribing stage skips A, transcribes B from
its path, and exactly one transcript is created. -/
theorem claim3_amended (times : Nat → Nat) (dl : String → Except PyErr String)
    (tr : String → Except PyErr TranscriptResult) (s : DBState)
    (idA idB : String) (dA : VideoDoc) (e : PyErr) (p : String)
    (res : TranscriptResult) (nB : Nat)
    (hA : findVideoById s idA = .ok (some dA))
    (hfail : dl dA.video_url = .error e)
    (hne : idB ≠ idA) (hp : ¬ (p = ""))
    (htr : tr p = .ok res) (hB : parseObjectId idB = .ok nB) :
    DailyWorkflow.download_videos dl s [idA, idB] = .error e
    ∧ (DailyWorkflow.transcribe_videos times tr s [idA, idB] [(idB, p)]).transcripts.length
        = s.transcripts.length + 1 := by
  constructor
  · simp only [DailyWorkflow.download_videos, DailyWorkflow.downloadLoop, hA, hfail,
      bind, Except.bind]
  · have hBA : (idB == idA) = false := beq_eq_false_iff_ne.mpr hne
    have hBB : (idB == idB) = true := beq_self_eq_true idB
    have hins := insertTranscriptDoc_eq times s idB nB hB res.text res.language
    simp only [DailyWorkflow.transcribe_videos, DailyWorkflow.transcribeLoop,
      List.find?_singleton]
    simp [hBA, hBB, hp, htr, hins, bind, Except.bind]

/-- C3 witness: the amended claim at the concrete two-video store, the
downloader that fails exactly on the url of A, and a succeeding
transcriber. -/
theorem claim3_amended_witness :
    DailyWorkflow.download_videos cxOraclesAB.downloader cxVStateAB
        [objectIdStr 1, objectIdStr 2] = .error (.collaborator "downA")
    ∧ (DailyWorkflow.transcribe_videos cxTimes cxOraclesAB.transcriber cxVStateAB
          [objectIdStr 1, objectIdStr 2]
          [(objectIdStr 2, "/tmp/b.mp4")]).transcripts.length
        = cxVStateAB.transcripts.length + 1 :=
  claim3_amended cxTimes cxOraclesAB.downloader cxOraclesAB.transcriber cxVStateAB
    (objectIdStr 1) (objectIdStr 2) cxVideoDoc (.collaborator "downA") "/tmp/b.mp4"
    { text := "hello", language := "en" } 2
    rfl rfl (by decide) (by decide) rfl (parseObjectId_objectIdStr 2)

/-- C10: every video record inserted by the SearchingVideos stage has its
language field set to the constant en and its category field set to the
constant education — any video present in the post-stage store was either
already present before the stage or carries exactly these two constants,
regardless of the originating keyword or search result. -/
theorem claim10_video_constants (times : Nat → Nat)
    (searcher : String → String → Except PyErr (List SearchResult))
    (s : DBState) (kids : List String) (s1 : DBState) (vids : List String)
    (h : DailyWorkflow.search_videos times searcher s kids = .ok (s1, vids)) :
    ∀ p ∈ s1.videos, p ∈ s.videos
      ∨ (p.snd.video_language = "en" ∧ p.snd.video_category = "education") :=
  searchKeywordsLoop_mem times searcher kids s [] s1 vids h

/-- C10 witness: the constants at the concrete search run that inserts one
video from the one-keyword store. -/
theorem claim10_video_constants_witness :
    (1, cxVideoDoc) ∈ cxKState.videos
      ∨ ((1, cxVideoDoc).snd.video_language = "en"
          ∧ (1, cxVideoDoc).snd.video_category = "education") :=
  claim10_video_constants cxTimes (fun _ _ => .ok [cxSearchRes]) cxKState
    [objectIdStr 0] cxVState [objectIdStr 1] rfl (1, cxVideoDoc) (by decide)

end YTDigest
